import Mathlib

set_option maxHeartbeats 1000000

/-!
Verification of the land-use/land-cover change-detection dashboard
(`app.py`, `modules/gee_utils.py`, `modules/report_utils.py`).

Python floats are embedded as rationals (`ℚ`), Python dicts over integer
class ids as association lists with first-match lookup, and Python
`sorted(set(xs) | set(ys))` as an ascending sort of the deduplicated
concatenation of the key lists.
`round(x, 2)` is embedded as rounding half-to-even at two decimal places,
the rounding mode of the Python builtin `round`.
-/

/-- Rounding of a rational to the nearest integer, ties to even — the
behaviour of the Python builtin `round` at integer precision. -/
def roundHalfEven (x : ℚ) : ℤ :=
  if x - ⌊x⌋ < 1/2 then ⌊x⌋
  else if 1/2 < x - ⌊x⌋ then ⌊x⌋ + 1
  else if ⌊x⌋ % 2 = 0 then ⌊x⌋ else ⌊x⌋ + 1

/-- Embedding of Python `round(x, 2)`. -/
def round2 (x : ℚ) : ℚ :=
  (roundHalfEven (x * 100) : ℚ) / 100

/-- Class-area mapping: Python dict from integer cluster id to area in
hectares, as an association list (keys unique in any dict-produced value,
lookup takes the first match). -/
abbrev ClassMap := List (Nat × ℚ)

/-- Embedding of Python `m.get(k, 0)`: first-match lookup with default
`0`. -/
def dictGet (m : ClassMap) (k : Nat) : ℚ :=
  match m with
  | [] => 0
  | (k₀, v) :: rest => if k₀ = k then v else dictGet rest k

/-- Key set of a mapping, embedding Python `set(m.keys())`. -/
def keySet (m : ClassMap) : Finset Nat :=
  (m.map Prod.fst).toFinset

/-- Embedding of `sorted(set(before.keys()) | set(after.keys()))` at
`app.py` line 214: the distinct keys of either mapping, in ascending
order. -/
def allKeys (b a : ClassMap) : List Nat :=
  ((b.map Prod.fst ++ a.map Prod.fst).dedup).insertionSort (· ≤ ·)

/-- Percent-change field of a comparison row: either a rounded number or
the string marker rendered when the before-area is zero. -/
inductive Percent where
  | num (q : ℚ)
  | na
  deriving DecidableEq, Repr

/-- Comparison row of the dashboard table: (cluster id, before, after,
change, percent change). -/
abbrev Row := Nat × ℚ × ℚ × ℚ × Percent

/-- Loop body of the `table_data` loop at `app.py` lines 219-224:
`b = before.get(k, 0)`, `a = after.get(k, 0)`, `diff = round(a - b, 2)`,
`percent = round((diff / b) * 100, 2) if b != 0 else "N/A"`. -/
def rowFor (b a : ClassMap) (k : Nat) : Row :=
  (k, dictGet b k, dictGet a k, round2 (dictGet a k - dictGet b k),
   if dictGet b k ≠ 0 then
     Percent.num (round2 (round2 (dictGet a k - dictGet b k) / dictGet b k * 100))
   else Percent.na)

/-- Embedding of the dashboard comparison table built at `app.py`
lines 218-224: one row per key of the sorted key union. -/
def table_data (b a : ClassMap) : List Row :=
  (allKeys b a).map (rowFor b a)

/-- Embedding of the imperative form of the same loop: `table_data`
starts from an accumulator and each iteration appends one row. -/
def run_aggregation (b a : ClassMap) (acc : List Row) : List Row :=
  (allKeys b a).foldl (fun t k => t ++ [rowFor b a k]) acc

/-- Embedding of the `summary_structured` dictionary built for the PDF
report at `app.py` lines 288-298: per key, (before, after,
`round(after - before, 2)`,
`round(((after - before) / before) * 100, 2) if before != 0 else 0`).
The percent field here is always a number; the zero-before case yields the
number `0`. -/
def summary_structured (b a : ClassMap) : List (Nat × ℚ × ℚ × ℚ × ℚ) :=
  (allKeys b a).map fun k =>
    (k, dictGet b k, dictGet a k, round2 (dictGet a k - dictGet b k),
     if dictGet b k ≠ 0 then
       round2 ((dictGet a k - dictGet b k) / dictGet b k * 100)
     else 0)

/-- Calendar dates as proleptic day ordinals. The Python expression
`start_date + (end_date - start_date) / 2` at `app.py` line 140 divides a
whole-day timedelta by two and adds it to a date; date addition discards
the fractional half day, so on day ordinals it is division by two rounded
toward zero (the difference is non-negative whenever start ≤ end); the
name avoids clashing with the library function of the same name. -/
def midpointDay (s e : ℤ) : ℤ :=
  s + (e - s) / 2

/-- Before window `[start, midpoint]` used at `app.py` line 142. -/
def beforeWindow (s e : ℤ) : Finset ℤ :=
  Finset.Icc s (midpointDay s e)

/-- After window `[midpoint + 1 day, end]` used at `app.py` line 147. -/
def afterWindow (s e : ℤ) : Finset ℤ :=
  Finset.Icc (midpointDay s e + 1) e

/-- Degree conversion at `app.py` lines 47 and 66:
`delta = buffer_km / 111.0`. -/
def deltaOf (buffer_km : ℚ) : ℚ :=
  buffer_km / 111

/-- Square region polygon built at `app.py` lines 68-76 (and, with the
preset constants, lines 49-57): an ordered closed ring of
(longitude, latitude) vertices around the centre. -/
def region_geom (lat lon buffer_km : ℚ) : List (ℚ × ℚ) :=
  [(lon - deltaOf buffer_km, lat - deltaOf buffer_km),
   (lon - deltaOf buffer_km, lat + deltaOf buffer_km),
   (lon + deltaOf buffer_km, lat + deltaOf buffer_km),
   (lon + deltaOf buffer_km, lat - deltaOf buffer_km),
   (lon - deltaOf buffer_km, lat - deltaOf buffer_km)]

/-- Centroid of a closed ring: the average of its vertices with the
repeated closing vertex dropped. -/
def ringCentroid (ring : List (ℚ × ℚ)) : ℚ × ℚ :=
  ((ring.dropLast.map Prod.fst).sum / ring.dropLast.length,
   (ring.dropLast.map Prod.snd).sum / ring.dropLast.length)

/-- Histogram-to-hectares conversion at `gee_utils.py` line 104:
`result = {int(k): round(v * 0.01, 2) for k, v in class_freq.items()}`,
where `v * 0.01` is the per-class pixel count times the ground area of one
10 m by 10 m pixel in hectares. -/
def summarize_histogram (class_freq : List (Nat × ℚ)) : ClassMap :=
  class_freq.map fun kv => (kv.1, round2 (kv.2 * (1/100)))

/-- Return value of `classify_and_summarize` in `gee_utils.py` as a
Python value: the zero-sample path at line 82 returns a bare empty dict,
the normal path at line 106 returns the pair `(result, clustered)`. -/
inductive ClassifyResult where
  | emptyDict
  | pair (summary : ClassMap) (clustered : Nat)
  deriving DecidableEq, Repr

/-- Embedding of `classify_and_summarize` (`gee_utils.py` lines 58-106),
with the external responses as parameters: `sampleSize` is
`training.size().getInfo()`, `class_freq` the cluster histogram returned
by the region reduction, and `clustered` a handle for the classified
raster. -/
def classify_and_summarize (sampleSize : Nat) (class_freq : List (Nat × ℚ))
    (clustered : Nat) : ClassifyResult :=
  if sampleSize = 0 then ClassifyResult.emptyDict
  else ClassifyResult.pair (summarize_histogram class_freq) clustered

/-- Python 2-target tuple unpacking applied to a `classify_and_summarize`
return value, as at `app.py` line 170
(`before_summary, before_clustered = classify_and_summarize(...)`):
iterating a dict yields its keys, so the empty dict yields zero items and
the unpacking raises ValueError, modelled as `none`. -/
def unpack2 : ClassifyResult → Option (ClassMap × Nat)
  | ClassifyResult.emptyDict => none
  | ClassifyResult.pair s c => some (s, c)

/-- Session-state fields written by the satellite-image fetch stage. -/
structure SessionState where
  before_url : Option String
  after_url : Option String
  deriving DecidableEq, Repr

/-- Embedding of the try/except fetch stage at `app.py` lines 138-163.
Each external call either returns a thumbnail URL or raises; a raise
transfers control to the except arm at line 162, which displays the
message, keeping whatever session-state assignments already ran: the
before URL is stored at line 145, before the after-window fetch at
line 147 runs. Returns the resulting session state and the displayed
error message, if any. -/
def fetch_stage (beforeFetch afterFetch : Except String String)
    (s : SessionState) : SessionState × Option String :=
  match beforeFetch with
  | Except.error msg => (s, some ("Failed to fetch images: " ++ msg))
  | Except.ok burl =>
    match afterFetch with
    | Except.error msg =>
        (SessionState.mk (some burl) s.after_url,
         some ("Failed to fetch images: " ++ msg))
    | Except.ok aurl => (SessionState.mk (some burl) (some aurl), none)

/-- Local file store: filename to stored image bytes. -/
abbrev FileStore := List (String × String)

/-- HTTP response as seen by `save_image_from_url`. -/
structure Response where
  status_code : Nat
  content : String
  deriving DecidableEq, Repr

/-- Embedding of `save_image_from_url` at `app.py` lines 17-24, with the
HTTP response as a parameter: when the status is 200 the decoded image is
written to `filename`; on any other status the function falls through the
`if`, writing nothing and raising nothing. The second component is the
raised error, if any. -/
def save_image_from_url (resp : Response) (filename : String)
    (fs : FileStore) : FileStore × Option String :=
  if resp.status_code = 200 then
    ((filename, resp.content) :: fs.filter (fun p => p.1 ≠ filename), none)
  else (fs, none)

/-- Image bytes that `generate_pdf_report` (`report_utils.py` line 120)
embeds for a given path: the current content of the file at that path. -/
def report_embeds (fs : FileStore) (path : String) : Option String :=
  fs.lookup path

/-! Helper lemmas. -/

theorem roundHalfEven_nonneg {x : ℚ} (hx : 0 ≤ x) : 0 ≤ roundHalfEven x := by
  have hf : (0:ℤ) ≤ ⌊x⌋ := Int.floor_nonneg.mpr hx
  unfold roundHalfEven
  split
  · exact hf
  · split
    · omega
    · split
      · exact hf
      · omega

theorem round2_nonneg {x : ℚ} (hx : 0 ≤ x) : 0 ≤ round2 x := by
  unfold round2
  have h : (0:ℤ) ≤ roundHalfEven (x * 100) :=
    roundHalfEven_nonneg (by positivity)
  exact div_nonneg (by exact_mod_cast h) (by norm_num)

theorem mem_allKeys {b a : ClassMap} {k : Nat} :
    k ∈ allKeys b a ↔ k ∈ keySet b ∪ keySet a := by
  simp [allKeys, keySet, List.mem_dedup]

theorem nodup_allKeys (b a : ClassMap) : (allKeys b a).Nodup :=
  ((List.perm_insertionSort _ _).nodup_iff).mpr (List.nodup_dedup _)

theorem sorted_allKeys (b a : ClassMap) : (allKeys b a).Sorted (· < ·) :=
  List.Sorted.lt_of_le (List.sorted_insertionSort _ _) (nodup_allKeys b a)

theorem toFinset_allKeys (b a : ClassMap) :
    (allKeys b a).toFinset = keySet b ∪ keySet a := by
  ext k
  rw [List.mem_toFinset]
  exact mem_allKeys

theorem allKeys_eq_of_keySet_eq {b a b' a' : ClassMap}
    (hb : keySet b = keySet b') (ha : keySet a = keySet a') :
    allKeys b a = allKeys b' a' := by
  have hp : List.Perm (allKeys b a) (allKeys b' a') :=
    List.perm_of_nodup_nodup_toFinset_eq (nodup_allKeys b a) (nodup_allKeys b' a')
      (by rw [toFinset_allKeys, toFinset_allKeys, hb, ha])
  exact List.eq_of_perm_of_sorted hp
    (List.sorted_insertionSort _ _) (List.sorted_insertionSort _ _)

theorem dictGet_eq_zero_of_not_mem_keys {m : ClassMap} {k : Nat}
    (h : k ∉ m.map Prod.fst) : dictGet m k = 0 := by
  induction m with
  | nil => rfl
  | cons kv rest ih =>
    obtain ⟨k₀, v⟩ := kv
    simp only [List.map_cons, List.mem_cons, not_or] at h
    obtain ⟨h1, h2⟩ := h
    have hne : k₀ ≠ k := fun hk => h1 hk.symm
    simp [dictGet, hne, ih h2]

theorem dictGet_eq_zero_of_not_mem {m : ClassMap} {k : Nat}
    (h : k ∉ keySet m) : dictGet m k = 0 :=
  dictGet_eq_zero_of_not_mem_keys (by simpa [keySet] using h)

theorem map_fst_table_data (b a : ClassMap) :
    (table_data b a).map Prod.fst = allKeys b a := by
  rw [table_data, List.map_map]
  have h : Prod.fst ∘ rowFor b a = id := funext fun k => rfl
  rw [h, List.map_id]

theorem foldl_append_map {α β : Type} (f : α → β) :
    ∀ (l : List α) (acc : List β),
      l.foldl (fun t k => t ++ [f k]) acc = acc ++ l.map f
  | [], acc => by simp
  | k :: t, acc => by
    simp [foldl_append_map f t (acc ++ [f k])]

theorem run_aggregation_eq (b a : ClassMap) (acc : List Row) :
    run_aggregation b a acc = acc ++ table_data b a :=
  foldl_append_map (rowFor b a) (allKeys b a) acc

/-! Claim theorems. -/

/-- C2: the zero-training-sample return value of `classify_and_summarize`
is the bare empty dict, and the 2-target tuple unpacking at the call site
(`summary, clustered = classify_and_summarize(...)`) fails on it: the
unpacking yields no value, the embedded ValueError. This refutes the
claim that the caller can consume the zero-sample return value without
raising. -/
theorem classify_zero_sample_unpack_crash (freq : List (Nat × ℚ)) (c : Nat) :
    unpack2 (classify_and_summarize 0 freq c) = none := rfl

/-- C4: for start < end the splitter computes
`midpoint = start + (end - start) / 2`, the before window is
`[start, midpoint]`, the after window is `[midpoint + 1 day, end]`, the
two windows are disjoint, and their union covers `[start, end]`. -/
theorem time_window_split (s e : ℤ) (h : s < e) :
    midpointDay s e = s + (e - s) / 2 ∧
    beforeWindow s e = Finset.Icc s (midpointDay s e) ∧
    afterWindow s e = Finset.Icc (midpointDay s e + 1) e ∧
    Disjoint (beforeWindow s e) (afterWindow s e) ∧
    beforeWindow s e ∪ afterWindow s e = Finset.Icc s e := by
  refine ⟨rfl, rfl, rfl, ?_, ?_⟩
  · rw [Finset.disjoint_left]
    intro d hd hd2
    rw [beforeWindow, Finset.mem_Icc] at hd
    rw [afterWindow, Finset.mem_Icc] at hd2
    omega
  · ext d
    rw [Finset.mem_union, beforeWindow, afterWindow, midpointDay,
      Finset.mem_Icc, Finset.mem_Icc, Finset.mem_Icc]
    omega

/-- C4 witness: the splitter property at the concrete range 0 < 10. -/
theorem time_window_split_witness :
    beforeWindow 0 10 ∪ afterWindow 0 10 = Finset.Icc 0 10 ∧
    Disjoint (beforeWindow 0 10) (afterWindow 0 10) :=
  ⟨(time_window_split 0 10 (by decide)).2.2.2.2,
   (time_window_split 0 10 (by decide)).2.2.2.1⟩

/-- C5: for any positive buffer radius and centre, the region polygon is
the square with corners at centre ± delta where `delta = r / 111`, its
ring has exactly 5 points, its first vertex equals its last, and the
centre `(lon, lat)` is its centroid. -/
theorem region_geom_square (lat lon r : ℚ) (h : 0 < r) :
    (region_geom lat lon r).length = 5 ∧
    (region_geom lat lon r).head? = (region_geom lat lon r).getLast? ∧
    region_geom lat lon r =
      [(lon - r / 111, lat - r / 111), (lon - r / 111, lat + r / 111),
       (lon + r / 111, lat + r / 111), (lon + r / 111, lat - r / 111),
       (lon - r / 111, lat - r / 111)] ∧
    ringCentroid (region_geom lat lon r) = (lon, lat) := by
  refine ⟨rfl, rfl, rfl, ?_⟩
  simp only [ringCentroid, region_geom, deltaOf, List.dropLast, List.map_cons,
    List.map_nil, List.sum_cons, List.sum_nil, List.length_cons, List.length_nil]
  norm_num
  constructor <;> ring

/-- C5 witness: the square-polygon property at radius 3 and centre
latitude 1, longitude 2. -/
theorem region_geom_square_witness :
    (region_geom 1 2 3).length = 5 ∧
    (region_geom 1 2 3).head? = (region_geom 1 2 3).getLast? ∧
    region_geom 1 2 3 =
      [(2 - 3 / 111, 1 - 3 / 111), (2 - 3 / 111, 1 + 3 / 111),
       (2 + 3 / 111, 1 + 3 / 111), (2 + 3 / 111, 1 - 3 / 111),
       (2 - 3 / 111, 1 - 3 / 111)] ∧
    ringCentroid (region_geom 1 2 3) = (2, 1) :=
  region_geom_square 1 2 3 (by simp)

/-- C7 counterexample: the fetch stage stores the before URL before the
after-window fetch runs, so when the after fetch fails the stored results
are not left unchanged — the before URL is already overwritten while the
after URL keeps its prior value, a partial update. -/
theorem fetch_stage_partial_update :
    (fetch_stage (Except.ok "new_before") (Except.error "service down")
        (SessionState.mk (some "old_before") (some "old_after"))).1 ≠
      SessionState.mk (some "old_before") (some "old_after") := by
  decide

/-- C7 amended: an external-call failure in the fetch stage is surfaced
as a displayed error message and does not terminate the session; a
failure of the first (before) fetch leaves the session state fully
unchanged, while a failure of the second (after) fetch leaves the
after URL unchanged but has already stored the new before URL. -/
theorem fetch_stage_failure (s : SessionState) (bu msg : String)
    (af : Except String String) :
    fetch_stage (Except.error msg) af s =
      (s, some ("Failed to fetch images: " ++ msg)) ∧
    (fetch_stage (Except.ok bu) (Except.error msg) s).1.before_url = some bu ∧
    (fetch_stage (Except.ok bu) (Except.error msg) s).1.after_url = s.after_url ∧
    (fetch_stage (Except.ok bu) (Except.error msg) s).2 =
      some ("Failed to fetch images: " ++ msg) :=
  ⟨rfl, rfl, rfl, rfl⟩

/-- C10: `save_image_from_url` writes only on HTTP status exactly 200;
any non-200 response changes no file and raises no error, so a later
report generation embeds whatever content the target path held before —
possibly a stale image from a previous run. -/
theorem save_image_skips_non200 (resp : Response) (filename : String)
    (fs : FileStore) (h : resp.status_code ≠ 200) :
    save_image_from_url resp filename fs = (fs, none) ∧
    report_embeds (save_image_from_url resp filename fs).1 filename =
      report_embeds fs filename := by
  constructor
  · simp [save_image_from_url, h]
  · simp [save_image_from_url, h]

/-- C10 witness: a 404 response leaves the stale file in place and is
re-embedded by the report. -/
theorem save_image_skips_non200_witness :
    save_image_from_url (Response.mk 404 "fresh") "before.png"
        [("before.png", "stale")] = ([("before.png", "stale")], none) ∧
    report_embeds (save_image_from_url (Response.mk 404 "fresh") "before.png"
        [("before.png", "stale")]).1 "before.png" =
      report_embeds [("before.png", "stale")] "before.png" :=
  save_image_skips_non200 (Response.mk 404 "fresh") "before.png"
    [("before.png", "stale")] (by decide)

/-- C6: on before = {0: 10.0, 1: 5.0} and after = {0: 8.0, 2: 3.0} the
aggregator produces exactly the rows (0, 10, 8, -2, -20%),
(1, 5, 0, -5, -100%) and (2, 0, 3, 3, not-applicable). -/
theorem table_data_example :
    table_data [(0, 10), (1, 5)] [(0, 8), (2, 3)] =
      [(0, 10, 8, -2, Percent.num (-20)),
       (1, 5, 0, -5, Percent.num (-100)),
       (2, 0, 3, 3, Percent.na)] := by
  norm_num [table_data, allKeys, rowFor, dictGet, round2, roundHalfEven,
    List.insertionSort, List.orderedInsert, List.dedup]

/-- C8: every entry of the per-class area summary maps class id `k` with
pixel count `v` to `round(v * 0.01, 2)` hectares — the 10 m pixel ground
area of 0.01 ha per pixel — and every reported area is non-negative when
every pixel count is. -/
theorem histogram_area_conversion (freq : List (Nat × ℚ))
    (h : ∀ kv ∈ freq, 0 ≤ kv.2) :
    (∀ kv ∈ freq, (kv.1, round2 (kv.2 * (1/100))) ∈ summarize_histogram freq) ∧
    ∀ p ∈ summarize_histogram freq, 0 ≤ p.2 := by
  constructor
  · intro kv hkv
    exact List.mem_map.mpr ⟨kv, hkv, rfl⟩
  · intro p hp
    obtain ⟨kv, hkv, hpe⟩ := List.mem_map.mp hp
    have h0 : 0 ≤ kv.2 := h kv hkv
    have : 0 ≤ round2 (kv.2 * (1/100)) := round2_nonneg (by positivity)
    rw [← hpe]
    exact this

/-- C8 witness: the conversion at the one-class histogram with 300
pixels, reported as 3 hectares. -/
theorem histogram_area_conversion_witness :
    (0, round2 ((300:ℚ) * (1/100))) ∈ summarize_histogram [(0, 300)] ∧
    ∀ p ∈ summarize_histogram [(0, 300)], 0 ≤ p.2 :=
  ⟨(histogram_area_conversion [(0, 300)] (by simp)).1 (0, 300) (by simp),
   (histogram_area_conversion [(0, 300)] (by simp)).2⟩

/-- C3: the output row key list of the aggregator is sorted ascending and its
key set is exactly the union of the two input key sets; a class id
missing from either mapping is treated as area 0, and the change field of
each row is the rounded difference of the (defaulted) after and before
areas. -/
theorem aggregator_key_union (b a : ClassMap) :
    ((table_data b a).map Prod.fst).Sorted (· < ·) ∧
    ((table_data b a).map Prod.fst).toFinset = keySet b ∪ keySet a ∧
    (∀ k, k ∉ keySet b → dictGet b k = 0) ∧
    (∀ k, k ∉ keySet a → dictGet a k = 0) ∧
    ∀ r ∈ table_data b a,
      r.2.1 = dictGet b r.1 ∧ r.2.2.1 = dictGet a r.1 ∧
      r.2.2.2.1 = round2 (dictGet a r.1 - dictGet b r.1) := by
  rw [map_fst_table_data]
  refine ⟨sorted_allKeys b a, toFinset_allKeys b a,
    fun k hk => dictGet_eq_zero_of_not_mem hk,
    fun k hk => dictGet_eq_zero_of_not_mem hk, ?_⟩
  intro r hr
  obtain ⟨k, hk, hre⟩ := List.mem_map.mp hr
  subst hre
  exact ⟨rfl, rfl, rfl⟩

/-- C3 witness: the key-union property at before = {0: 10} and an empty
after mapping; the absent key 5 defaults to area 0. -/
theorem aggregator_key_union_witness :
    dictGet [(0, (10:ℚ))] 5 = 0 ∧
    ((table_data [(0, (10:ℚ))] []).map Prod.fst).Sorted (· < ·) :=
  ⟨(aggregator_key_union [(0, 10)] []).2.2.1 5 (by decide),
   (aggregator_key_union [(0, 10)] []).1⟩

/-- C9: the aggregation is deterministic and idempotent — two runs of the
row-appending loop, each from a fresh empty list, over any two
representations of the same pair of mappings (equal lookups and equal key
sets) produce identical comparison rows, rounded values included. -/
theorem aggregation_deterministic (b a b' a' : ClassMap)
    (hbv : ∀ k, dictGet b k = dictGet b' k) (hbk : keySet b = keySet b')
    (hav : ∀ k, dictGet a k = dictGet a' k) (hak : keySet a = keySet a') :
    run_aggregation b a [] = run_aggregation b' a' [] := by
  rw [run_aggregation_eq, run_aggregation_eq, List.nil_append, List.nil_append]
  rw [table_data, table_data, allKeys_eq_of_keySet_eq hbk hak]
  have hrow : rowFor b a = rowFor b' a' := funext fun k => by
    unfold rowFor
    rw [hbv k, hav k]
  rw [hrow]

/-- C9 witness: two runs over different list representations of the same
mappings produce identical rows. -/
theorem aggregation_deterministic_witness :
    run_aggregation [(0, 10), (0, 99)] [] [] =
      run_aggregation [(0, (10:ℚ))] [] [] :=
  aggregation_deterministic [(0, 10), (0, 99)] [] [(0, 10)] []
    (fun k => by rcases k with _ | n <;> rfl) (by decide)
    (fun _ => rfl) rfl

/-- C1 counterexample: on before = {0: 0}, after = {0: 3} the structured
summary passed to the PDF report renders the percent field as the number
0 — the very value it renders for a genuine zero-change row such as
before = {0: 10}, after = {0: 10} — not as a distinguishable
not-applicable marker. -/
theorem summary_structured_silent_zero :
    summary_structured [(0, 0)] [(0, 3)] = [(0, 0, 3, 3, 0)] ∧
    summary_structured [(0, 10)] [(0, 10)] = [(0, 10, 10, 0, 0)] := by
  constructor <;>
    norm_num [summary_structured, allKeys, dictGet, round2, roundHalfEven,
      List.insertionSort, List.orderedInsert, List.dedup]

/-- C1 amended: for a class id whose before-area is zero or absent, the
dashboard table renders the percent field as the distinguishable
not-applicable marker (no division is attempted), but the structured
summary passed to the PDF report renders it as the silent number 0. -/
theorem percent_of_zero_before (b a : ClassMap) (k : Nat)
    (hk : k ∈ allKeys b a) (h0 : dictGet b k = 0) :
    (k, 0, dictGet a k, round2 (dictGet a k), Percent.na) ∈ table_data b a ∧
    (k, 0, dictGet a k, round2 (dictGet a k), (0:ℚ)) ∈
      summary_structured b a := by
  constructor
  · refine List.mem_map.mpr ⟨k, hk, ?_⟩
    unfold rowFor
    rw [h0]
    norm_num
  · refine List.mem_map.mpr ⟨k, hk, ?_⟩
    simp only [h0]
    norm_num

/-- C1 witness: the amended rendering at before = {0: 0},
after = {0: 3}. -/
theorem percent_of_zero_before_witness :
    (0, 0, dictGet [(0, 3)] 0, round2 (dictGet [(0, 3)] 0), Percent.na) ∈
      table_data [(0, (0:ℚ))] [(0, 3)] ∧
    (0, 0, dictGet [(0, 3)] 0, round2 (dictGet [(0, 3)] 0), (0:ℚ)) ∈
      summary_structured [(0, (0:ℚ))] [(0, 3)] :=
  percent_of_zero_before [(0, 0)] [(0, 3)] 0 (by decide) rfl
